import Mathlib

/-!
# Verification of the ai-service task-lifecycle and workflow-orchestration core

Shallow embedding, in Lean 4, of the parts of the `mission-engadi/ai-service`
Python repository that its specification makes claims about:

* the `AITask` entity and its lifecycle transitions
  (`app/services/ai_task_service.py`, `app/services/translation_service.py`);
* the translation domain operation and its batch variant
  (`app/services/translation_service.py`);
* the content-template engine: variable extraction and rendering
  (`app/services/content_template_service.py`);
* the AI provider gateway normalization (`app/core/abacus_client.py`);
* the in-memory workflow orchestrator (`app/services/automation_service.py`).

Modelling conventions:

* Python dicts whose values the claims never inspect are modelled as
  association lists `List (String × String)`;
* database-generated UUIDs are modelled as caller-supplied opaque strings or
  naturals (the claims never depend on their values, only on identity);
* timestamps are naturals (opaque ticks);
* the float `quality_score` (constant `0.85` in the source) is modelled in
  hundredths as the natural `85` — no claim inspects its numeric value;
* a Python function that can raise returns `Except` with an explicit
  exception type; re-raising is returning the same `error`.
-/

namespace AiService

/-! ## Python exception values -/

/-- A Python exception as observed by the callers modelled here: its class and
its `str(e)` message. -/
inductive PyExc where
  | valueError (msg : String)
  | typeError (msg : String)
  deriving DecidableEq, Repr

/-- `str(e)` of a modelled Python exception: for `ValueError`/`TypeError`,
`str` returns the message it was constructed with. -/
def PyExc.str : PyExc → String
  | .valueError m => m
  | .typeError m => m

/-! ## Task data model (`app/models/ai_task.py`) -/

/-- `TaskStatus` enum from `app/models/ai_task.py`. -/
inductive TaskStatus where
  | pending
  | processing
  | completed
  | failed
  | cancelled
  deriving DecidableEq, Repr

/-- Terminal statuses per the spec's state machine (§4.1): `completed`,
`failed`, `cancelled`. -/
def TaskStatus.isTerminal : TaskStatus → Bool
  | .completed => true
  | .failed => true
  | .cancelled => true
  | _ => false

/-- Result dict returned by `AbacusAIClient.translate_text`
(`app/core/abacus_client.py`, lines 126-130): keys `translated_text`,
`tokens_used`, `quality_score`. -/
structure ProviderTranslateResult where
  translated_text : String
  tokens_used : Nat
  quality_score : Nat
  deriving DecidableEq, Repr

/-- The `AITask` row, restricted to the fields the claims touch
(`app/models/ai_task.py`). `output_data` holds the provider result dict that
`TranslationService.translate` stores on completion. -/
structure AITask where
  id : Nat
  status : TaskStatus
  input_data : List (String × String)
  prompt : String
  output_data : Option ProviderTranslateResult
  tokens_used : Option Nat
  processing_time : Option Nat
  error_message : Option String
  requires_approval : Bool
  approved : Bool
  approved_by : Option String
  approved_at : Option Nat
  deriving DecidableEq, Repr

/-! ## Task lifecycle transitions

Each transition below is the exact field update the Python source performs on
the task row. -/

/-- `AITaskService.create_task` (`app/services/ai_task_service.py`, lines
39-46): a fresh task in status `PENDING`; no output, no error, not approved. -/
def create_task (id : Nat) (input_data : List (String × String)) (prompt : String)
    (requires_approval : Bool) : AITask :=
  { id := id
    status := .pending
    input_data := input_data
    prompt := prompt
    output_data := none
    tokens_used := none
    processing_time := none
    error_message := none
    requires_approval := requires_approval
    approved := false
    approved_by := none
    approved_at := none }

/-- The `task.status = TaskStatus.PROCESSING` step of
`TranslationService.translate` (`app/services/translation_service.py`,
line 79). -/
def begin_processing (t : AITask) : AITask :=
  { t with status := .processing }

/-- The success branch of `TranslationService.translate`
(`app/services/translation_service.py`, lines 93-96): status `COMPLETED`,
tokens, processing time and the provider result dict stored as
`output_data`. -/
def complete_task (t : AITask) (result : ProviderTranslateResult)
    (processing_time : Nat) : AITask :=
  { t with
    status := .completed
    tokens_used := some result.tokens_used
    processing_time := some processing_time
    output_data := some result }

/-- The failure branch of `TranslationService.translate`
(`app/services/translation_service.py`, lines 116-117): status `FAILED`,
`error_message = str(e)`. -/
def fail_task (t : AITask) (errMsg : String) : AITask :=
  { t with status := .failed, error_message := some errMsg }

/-- `AITaskService.reject_task` (`app/services/ai_task_service.py`, lines
182-183), applied to a found task: status is forced to `CANCELLED` and
`error_message` records the reason, unconditionally on the current status. -/
def reject_task (t : AITask) (reason : Option String) : AITask :=
  { t with
    status := .cancelled
    error_message := some ("Rejected by user: " ++ reason.getD "No reason provided") }

/-- `AITaskService.approve_task` (`app/services/ai_task_service.py`, lines
151-153), applied to a found task: sets the approval fields only. -/
def approve_task (t : AITask) (approved_by : String) (now : Nat) : AITask :=
  { t with
    approved := true
    approved_by := some approved_by
    approved_at := some now }

/-! ## Reachable task states

The task states produced by the lifecycle operations as the source composes
them: `create_task` makes a fresh task; `TranslationService.translate` applies
`begin_processing` to the task it just created and then exactly one of
`complete_task` / `fail_task` to that processing task; `reject_task` and
`approve_task` act on any stored task fetched by id. -/

/-- Task states reachable through the lifecycle operations, sequentially
composed as the source composes them. -/
inductive ReachableTask : AITask → Prop
  | created (id input prompt req) :
      ReachableTask (create_task id input prompt req)
  | processing (id input prompt req) :
      ReachableTask (begin_processing (create_task id input prompt req))
  | translated_ok (id input prompt req result ptime) :
      ReachableTask
        (complete_task (begin_processing (create_task id input prompt req)) result ptime)
  | translated_err (id input prompt req errMsg) :
      ReachableTask
        (fail_task (begin_processing (create_task id input prompt req)) errMsg)
  | rejected (t reason) : ReachableTask t → ReachableTask (reject_task t reason)
  | approved (t who now) : ReachableTask t → ReachableTask (approve_task t who now)

/-! ## Translation domain operation (`app/services/translation_service.py`) -/

/-- `TranslationStatus` enum from `app/models/translation_job.py`. -/
inductive TranslationStatus where
  | pending
  | processing
  | completed
  | failed
  deriving DecidableEq, Repr

/-- The `TranslationJob` row (`app/models/translation_job.py`), restricted to
the fields the claims touch. -/
structure TranslationJob where
  id : Nat
  task_id : Nat
  source_language : String
  target_language : String
  source_text : String
  translated_text : Option String
  status : TranslationStatus
  quality_score : Option Nat
  error_message : Option String
  deriving DecidableEq, Repr

/-- The response dict returned by `TranslationService.translate` on success
(`app/services/translation_service.py`, lines 106-112). -/
structure TranslateResponse where
  task_id : Nat
  translation_id : Nat
  translated_text : String
  quality_score : Option Nat
  status : String
  deriving DecidableEq, Repr

/-- `TranslationService.SUPPORTED_LANGUAGES`
(`app/services/translation_service.py`, line 25). -/
def SUPPORTED_LANGUAGES : List String := ["en", "es", "fr", "pt"]

/-- Outcome of one `TranslationService.translate` call. Besides the value
returned or the exception raised, the outcome carries the task row and the
`TranslationJob` row as they stand in the database when the call ends, so that
persistence effects are provable. -/
inductive TranslateOutcome where
  /-- A `ValueError` raised by the language validation (lines 48-51): raised
  before any task or job row is created. -/
  | validationError (msg : String)
  /-- The provider call raised: the task is `FAILED`, the job is `FAILED`,
  both committed, and the original exception message is re-raised
  (lines 114-121). -/
  | providerFailure (task : AITask) (job : TranslationJob) (errMsg : String)
  /-- The provider call succeeded: task `COMPLETED`, job `COMPLETED`, and the
  response dict of lines 106-112 returned. -/
  | success (task : AITask) (job : TranslationJob) (resp : TranslateResponse)
  deriving DecidableEq, Repr

/-- `TranslationService.translate` (`app/services/translation_service.py`,
lines 27-121). The database-generated UUIDs of the task and job rows are
modelled by the caller-supplied naturals `taskId` and `jobId`; the provider
call `abacus_client.translate_text` is an oracle argument `provider` (its
exception message when it raises, its result dict when it returns); the
measured wall-clock `processing_time` is the oracle `ptime`. -/
def translate (taskId jobId : Nat) (text source_lang target_lang : String)
    (provider : Except String ProviderTranslateResult) (ptime : Nat) :
    TranslateOutcome :=
  if source_lang ∉ SUPPORTED_LANGUAGES then
    .validationError ("Unsupported source language: " ++ source_lang)
  else if target_lang ∉ SUPPORTED_LANGUAGES then
    .validationError ("Unsupported target language: " ++ target_lang)
  else
    let task := create_task taskId
      [("text", text), ("source_lang", source_lang), ("target_lang", target_lang)]
      "" false
    let job : TranslationJob :=
      { id := jobId
        task_id := task.id
        source_language := source_lang
        target_language := target_lang
        source_text := text
        translated_text := none
        status := .processing
        quality_score := none
        error_message := none }
    let task := begin_processing task
    match provider with
    | .ok result =>
        let task := complete_task task result ptime
        let job := { job with
          status := .completed
          translated_text := some result.translated_text
          quality_score := some result.quality_score }
        .success task job
          { task_id := task.id
            translation_id := job.id
            translated_text := result.translated_text
            quality_score := some result.quality_score
            status := "completed" }
    | .error e =>
        let task := fail_task task e
        let job := { job with
          status := .failed
          error_message := some e }
        .providerFailure task job e

/-- Number of `TranslationJob` rows a `translate` call leaves persisted: the
job row is created (and committed, line 80) before the provider call, so both
the success and the provider-failure outcome leave one row; only the
validation error, raised before row creation, leaves none. -/
def resultEntityCount : TranslateOutcome → Nat
  | .validationError _ => 0
  | .providerFailure _ _ _ => 1
  | .success _ _ _ => 1

/-- One element of the list returned by `TranslationService.batch_translate`
(`app/services/translation_service.py`, lines 143-158): either the response
dict of a successful `translate` call, or the dict
`{"error": str(e), "text": text}` built in the `except` branch. -/
inductive BatchEntry where
  | ok (resp : TranslateResponse)
  | err (error : String) (text : String)
  deriving DecidableEq, Repr

/-- `TranslationService.batch_translate` (`app/services/translation_service.py`,
lines 123-158): iterates over `texts` in order, calling `translate` for each
and catching any exception it raises. `provider` maps the index of a provider
call to its outcome and `ptime` to its measured duration (a validation
failure raises before the provider is called, so it does not consume a call
index); `nextId` models the UUID generator, two fresh ids per task/job pair
created. -/
def batch_translate (texts : List String) (source_lang target_lang : String)
    (provider : Nat → Except String ProviderTranslateResult) (ptime : Nat → Nat)
    (nextId callIdx : Nat) : List BatchEntry :=
  match texts with
  | [] => []
  | text :: rest =>
    match translate nextId (nextId + 1) text source_lang target_lang
        (provider callIdx) (ptime callIdx) with
    | .validationError m =>
        .err m text :: batch_translate rest source_lang target_lang provider ptime
          nextId callIdx
    | .providerFailure _ _ e =>
        .err e text :: batch_translate rest source_lang target_lang provider ptime
          (nextId + 2) (callIdx + 1)
    | .success _ _ resp =>
        .ok resp :: batch_translate rest source_lang target_lang provider ptime
          (nextId + 2) (callIdx + 1)

/-! ## Content template engine (`app/services/content_template_service.py`) -/

/-- Left-to-right scan of `re.findall(r"\{([^}]+)\}", template_text)` as
performed by `ContentTemplateService.extract_variables`: a match is a `{`,
one or more characters none of which is `}` (greedy, so the maximal such
run — the class `[^}]` admits `\x7b` itself), then a `}`; scanning resumes
after each match, and a `\x7b` with no later `\x7d` or with an empty body
matches nothing. The scan state `acc` is `none` outside a candidate match
and `some body` after a `\x7b`, holding the body captured so far. -/
def findallAux (l : List Char) (acc : Option (List Char)) : List String :=
  match l, acc with
  | [], _ => []
  | c :: rest, none =>
      if c = '{' then findallAux rest (some [])
      else findallAux rest none
  | c :: rest, some body =>
      if c = '}' then
        if body.isEmpty then findallAux rest none
        else String.mk body :: findallAux rest none
      else findallAux rest (some (body ++ [c]))

/-- `re.findall(r"\{([^}]+)\}", template_text)`: the captured groups in match
order, duplicates included. -/
def findallBraced (l : List Char) : List String :=
  findallAux l none

/-- `ContentTemplateService.extract_variables`
(`app/services/content_template_service.py`, lines 23-31):
`list(set(re.findall(r"\{([^}]+)\}", template_text)))`. Python's set iteration
order is unspecified, so the result order is fixed here as first-occurrence
order; every property stated about it is order-insensitive (membership and
duplicate-freeness). -/
def extract_variables (template_text : String) : List String :=
  (findallBraced template_text.data).dedup

/-- The `ContentTemplate` row (`app/models/content_template.py`), restricted
to the fields the claims touch. -/
structure ContentTemplate where
  name : String
  template_type : String
  description : Option String
  prompt_template : String
  variables_ : List String
  language : String
  platform : Option String
  is_active : Bool
  usage_count : Nat
  deriving DecidableEq, Repr

/-- The `ContentTemplateCreate` payload (`app/schemas/content_template.py`). -/
structure ContentTemplateCreate where
  name : String
  template_type : String
  description : Option String
  prompt_template : String
  language : String
  platform : Option String
  deriving DecidableEq, Repr

/-- `ContentTemplateService.create_template`
(`app/services/content_template_service.py`, lines 33-72): derives
`variables` from the payload's `prompt_template` via `extract_variables`,
stores the row active with a zero usage count. -/
def create_template (data : ContentTemplateCreate) : ContentTemplate :=
  { name := data.name
    template_type := data.template_type
    description := data.description
    prompt_template := data.prompt_template
    variables_ := extract_variables data.prompt_template
    language := data.language
    platform := data.platform
    is_active := true
    usage_count := 0 }

/-- The `ContentTemplateUpdate` payload (`app/schemas/content_template.py`)
with `model_dump(exclude_unset=True)` semantics: `none` means the field was
not supplied in the request, `some v` that it was supplied with value `v`. -/
structure ContentTemplateUpdate where
  name : Option String := none
  description : Option (Option String) := none
  prompt_template : Option String := none
  variables_ : Option (List String) := none
  language : Option String := none
  platform : Option (Option String) := none
  is_active : Option Bool := none
  deriving DecidableEq, Repr

/-- `ContentTemplateService.update_template`
(`app/services/content_template_service.py`, lines 115-142), applied to a
found template: every supplied field overwrites the stored one, and whenever
`prompt_template` is among the supplied fields, `variables` is recomputed from
the new `prompt_template` (overriding a supplied `variables` value, since the
recomputation is written into the update dict last). -/
def update_template (t : ContentTemplate) (u : ContentTemplateUpdate) :
    ContentTemplate :=
  let vars : Option (List String) :=
    match u.prompt_template with
    | some pt => some (extract_variables pt)
    | none => u.variables_
  { t with
    name := u.name.getD t.name
    description := u.description.getD t.description
    prompt_template := u.prompt_template.getD t.prompt_template
    variables_ := vars.getD t.variables_
    language := u.language.getD t.language
    platform := u.platform.getD t.platform
    is_active := u.is_active.getD t.is_active }

/-! ## Template rendering (`ContentTemplateService.test_template`)

`test_template` renders via Python `str.format(**variables)`. The scanner
below embeds CPython format-string processing for the subset the repository
uses: literal text, `{{` / `}}` escapes, and plain `{name}` replacement
fields. Constructs outside that subset (conversions `!r`, format specs
`:spec`, attribute/index access, positional/auto-numbered fields) are mapped
to a distinguished `unsupported` error; no theorem below is stated about
them. -/

/-- An error raised while formatting: `missingVariable k` is the
`KeyError(k)` that a `{k}` field raises when `k` has no supplied value;
`malformed` is the `ValueError` CPython raises for unbalanced braces;
`unsupported` marks a replacement-field construct outside the modelled
subset. -/
inductive FormatError where
  | missingVariable (name : String)
  | malformed (msg : String)
  | unsupported (construct : String)
  deriving DecidableEq, Repr

/-- Keyword-argument lookup: the value bound to key `k` in the kwargs dict. -/
def lookupVar (vals : List (String × String)) (k : String) : Option String :=
  (vals.find? (fun p => p.1 == k)).map Prod.snd

/-- A character that makes a replacement-field name fall outside the plain
`{name}` subset: format spec, conversion, attribute access, indexing, or a
nested brace. -/
def fieldBreakChar (c : Char) : Bool :=
  c = ':' || c = '!' || c = '.' || c = '[' || c = '{'

/-- Scanner state: in literal text, inside a replacement field (holding the
field characters read so far — a `\x7b\x7b` escape is a field closed again
while still empty), or just after a `\x7d` seen in literal text (awaiting its
`\x7d\x7d` partner). -/
inductive ScanState where
  | lit
  | field (body : List Char)
  | closeBrace
  deriving DecidableEq, Repr

/-- CPython `str.format` scanning, restricted to the plain subset: copies
literal characters, turns `\x7b\x7b` / `\x7d\x7d` into one brace, errors on
an unpaired `\x7d` or an unterminated `\x7b`, and substitutes `\x7bname\x7d`
replacement fields from the kwargs dict, raising `KeyError(name)` (here
`missingVariable name`) at the first field whose name is not bound. The exact
CPython `ValueError` messages contain quoted braces; the `malformed` messages
here paraphrase them (no claim depends on their text). -/
def pyFormatScan (vals : List (String × String)) (l : List Char)
    (st : ScanState) : Except FormatError (List Char) :=
  match l, st with
  | [], .lit => .ok []
  | [], .field body =>
    if body.isEmpty then
      .error (.malformed "Single opening brace encountered in format string")
    else
      .error (.malformed "expected closing brace before end of string")
  | [], .closeBrace =>
      .error (.malformed "Single closing brace encountered in format string")
  | c :: rest, .lit =>
    if c = '{' then pyFormatScan vals rest (.field [])
    else if c = '}' then pyFormatScan vals rest .closeBrace
    else (fun s => c :: s) <$> pyFormatScan vals rest .lit
  | c :: rest, .closeBrace =>
    if c = '}' then (fun s => '}' :: s) <$> pyFormatScan vals rest .lit
    else .error (.malformed "Single closing brace encountered in format string")
  | c :: rest, .field body =>
    if c = '{' && body.isEmpty then
      (fun s => '{' :: s) <$> pyFormatScan vals rest .lit
    else if c = '}' then
      if body.any fieldBreakChar then
        .error (.unsupported (String.mk body))
      else if body.isEmpty || body.all (fun c => c.isDigit) then
        .error (.unsupported (String.mk body))
      else
        match lookupVar vals (String.mk body) with
        | some v => (fun s => v.data ++ s) <$> pyFormatScan vals rest .lit
        | none => .error (.missingVariable (String.mk body))
    else
      pyFormatScan vals rest (.field (body ++ [c]))

/-- `template.prompt_template.format(**variables)` as a `String` function. -/
def pyFormat (template_text : String) (vals : List (String × String)) :
    Except FormatError String :=
  (pyFormatScan vals template_text.data .lit).map String.mk

/-- The ASCII single-quote character, as Python `repr` uses around a string
key when a `KeyError` is converted with `str`. -/
def sq : String := String.mk [Char.ofNat 39]

/-- The rendering part of `ContentTemplateService.test_template`
(`app/services/content_template_service.py`, lines 191-195): calls
`str.format`, and re-raises a `KeyError e` as
`ValueError(f"Missing variable: \x7be\x7d")`, where `str(KeyError(k))` prints
the key in single quotes. A `ValueError` raised by the format parser itself
propagates uncaught; the `unsupported` marker of the modelled subset is kept
apart as a `typeError`-tagged value no theorem relies on. (The preceding
template lookup by id, raising `ValueError` when the template is unknown, is
orthogonal to rendering and not modelled.) -/
def test_template_render (prompt_template : String)
    (vals : List (String × String)) : Except PyExc String :=
  match pyFormat prompt_template vals with
  | .ok s => .ok s
  | .error (.missingVariable k) =>
      .error (.valueError ("Missing variable: " ++ sq ++ k ++ sq))
  | .error (.malformed m) => .error (.valueError m)
  | .error (.unsupported m) =>
      .error (.typeError ("unsupported format construct: " ++ m))

/-! ### Specification-side rendering

The following definitions follow the SPEC's words ("strict substitution:
every placeholder in the template must have a supplied value, or the
operation fails identifying the first missing key; no partial rendering"),
phrased over a template presented as alternating literal and placeholder
segments. They exist to be compared with the source-side `pyFormat` above. -/

/-- A template segment: literal text, or a `\x7bname\x7d` placeholder. -/
inductive Seg where
  | lit (s : String)
  | var (name : String)
  deriving DecidableEq, Repr

/-- The template text a segment denotes. -/
def segText : Seg → String
  | .lit s => s
  | .var n => "\x7b" ++ n ++ "\x7d"

/-- The template text of a segment list. -/
def ofSegs (segs : List Seg) : String :=
  segs.foldr (fun s acc => segText s ++ acc) ""

/-- Spec-side rendering: each placeholder replaced by its supplied value
(meaningful when no placeholder is missing). -/
def renderSegs (vals : List (String × String)) : List Seg → String
  | [] => ""
  | .lit s :: rest => s ++ renderSegs vals rest
  | .var n :: rest => (lookupVar vals n).getD "" ++ renderSegs vals rest

/-- The first placeholder (in template order) without a supplied value. -/
def firstMissing (vals : List (String × String)) : List Seg → Option String
  | [] => none
  | .lit _ :: rest => firstMissing vals rest
  | .var n :: rest =>
      match lookupVar vals n with
      | some _ => firstMissing vals rest
      | none => some n

/-- A segment of the plain subset: literal text without braces; placeholder
names that are nonempty, contain no brace and no format-spec / conversion /
attribute / index character, and are not all digits (not positional). -/
def wfSeg : Seg → Bool
  | .lit s => s.data.all (fun c => c ≠ '{' && c ≠ '}')
  | .var n =>
      !n.data.isEmpty &&
      n.data.all (fun c => c ≠ '{' && c ≠ '}' && !fieldBreakChar c) &&
      !n.data.all (fun c => c.isDigit)

/-- A plain-subset template. -/
def wfSegs (segs : List Seg) : Bool := segs.all wfSeg

/-! ## AI provider gateway (`app/core/abacus_client.py`) -/

/-- The provider response dict as `AbacusAIClient.generate_text` reads it
(lines 73-77): `result.get("content", "")`, `result.get("usage",
\x7b\x7d).get("total_tokens", 0)`, `result.get("model", "unknown")`. Absent
keys are `none`; the two-level `usage` lookup is collapsed into one optional
token count. -/
structure ChatLLMResponse where
  content : Option String
  total_tokens : Option Nat
  model : Option String
  deriving DecidableEq, Repr

/-- The normalized dict `generate_text` returns. -/
structure GenerateTextResult where
  text : String
  tokens_used : Nat
  model_used : String
  deriving DecidableEq, Repr

/-- A failure at the gateway boundary as the spec's taxonomy names them.
`providerTimeout` exists so the timeout claim can be stated; the source never
constructs it. -/
inductive GatewayFailure where
  | providerError (msg : String)
  | providerTimeout
  deriving DecidableEq, Repr

/-- `Settings.AI_TIMEOUT` (`app/core/config.py`, line 88): 60 seconds. No
code under `app/core/abacus_client.py` reads it. -/
def AI_TIMEOUT : Nat := 60

/-- `AbacusAIClient.generate_text` (`app/core/abacus_client.py`, lines
35-84). The provider call `client.chat_llm` is the oracle `providerOutcome`
(its response dict, or the message of the exception it raised);
`elapsedSeconds` models the wall-clock duration of that call. The source
awaits the call with no `asyncio.wait_for` or other deadline — both `except`
arms merely log and re-raise — so the result does not depend on
`elapsedSeconds` and no timeout failure is ever produced. -/
def generate_text (providerOutcome : Except String ChatLLMResponse)
    (elapsedSeconds : Nat) : Except GatewayFailure GenerateTextResult :=
  match providerOutcome with
  | .ok r =>
      .ok { text := r.content.getD ""
            tokens_used := r.total_tokens.getD 0
            model_used := r.model.getD "unknown" }
  | .error e => .error (.providerError e)

/-! ## Workflow orchestrator (`app/services/automation_service.py`) -/

/-- The `AutomationWorkflow` object (`app/services/automation_service.py`,
lines 21-41). -/
structure AutomationWorkflow where
  id : String
  name : String
  workflow_type : String
  config : List (String × String)
  schedule : Option String
  is_active : Bool
  created_by : String
  created_at : Nat
  deriving DecidableEq, Repr

/-- One entry of `AutomationService._workflow_history`
(`app/services/automation_service.py`, lines 210-217 / 224-231). -/
structure WorkflowExecution where
  execution_id : String
  workflow_id : String
  started_at : Nat
  completed_at : Nat
  status : String
  result : Option (List (String × String))
  error : Option String
  deriving DecidableEq, Repr

/-- The orchestrator's process-wide state: the `_workflows` dict and the
`_workflow_history` list. -/
structure AutomationState where
  workflows : List (String × AutomationWorkflow)
  history : List WorkflowExecution
  deriving DecidableEq, Repr

/-- `AutomationService._workflows.get(workflow_id)`. -/
def lookupWorkflow (st : AutomationState) (workflow_id : String) :
    Option AutomationWorkflow :=
  (st.workflows.find? (fun p => p.1 == workflow_id)).map Prod.snd

/-- `AutomationService.update_workflow`
(`app/services/automation_service.py`, lines 135-157), applied to a found
workflow. The source guards `name` and `config` with Python truthiness
(`if name:` / `if config:`), so a supplied empty string or empty dict is
ignored, while `schedule` and `is_active` are guarded with `is not None`. -/
def update_workflow (w : AutomationWorkflow) (name : Option String)
    (config : Option (List (String × String))) (schedule : Option String)
    (is_active : Option Bool) : AutomationWorkflow :=
  let w := match name with
    | some n => if n = "" then w else { w with name := n }
    | none => w
  let w := match config with
    | some c => if c = [] then w else { w with config := c }
    | none => w
  let w := match schedule with
    | some s => { w with schedule := some s }
    | none => w
  match is_active with
  | some b => { w with is_active := b }
  | none => w

/-- `uuid.UUID()` called with no arguments, as `trigger_workflow` line 194
does (`execution_id = str(UUID())`): the `UUID` constructor requires one of
`hex`, `bytes`, `bytes_le`, `fields` or `int` and raises `TypeError`
otherwise. -/
def uuid_constructor_noargs : Except PyExc String :=
  .error (.typeError
    "one of the hex, bytes, bytes_le, fields, or int arguments must be given")

/-- `AutomationService.trigger_workflow`
(`app/services/automation_service.py`, lines 168-233). The type-specific
handlers (`_execute_auto_translate`, `_execute_scheduled_post`), whose
behavior runs through the translation / generation services and their
database and provider effects, are the oracle `handler`, mapping the
dispatched `workflow_type` to the handler's result dict or the exception it
raised; `now`/`later` model the two `datetime.utcnow()` readings. `UUID()` is
evaluated before the `try` block, so when it raises, the exception
propagates to the caller with no history entry appended. -/
def trigger_workflow (st : AutomationState) (workflow_id : String)
    (handler : String → Except PyExc (List (String × String)))
    (now later : Nat) : Except PyExc WorkflowExecution × AutomationState :=
  match lookupWorkflow st workflow_id with
  | none =>
      (.error (.valueError ("Workflow " ++ workflow_id ++ " not found")), st)
  | some wf =>
    if wf.is_active = false then
      (.error (.valueError ("Workflow " ++ workflow_id ++ " is not active")), st)
    else
      match uuid_constructor_noargs with
      | .error e => (.error e, st)
      | .ok execution_id =>
        let outcome :=
          if wf.workflow_type = "auto_translate" then
            handler "auto_translate"
          else if wf.workflow_type = "scheduled_post" then
            handler "scheduled_post"
          else
            .ok [("message", "Workflow type not implemented")]
        match outcome with
        | .ok result =>
          let record : WorkflowExecution :=
            { execution_id := execution_id
              workflow_id := workflow_id
              started_at := now
              completed_at := later
              status := "completed"
              result := some result
              error := none }
          (.ok record, { st with history := st.history ++ [record] })
        | .error e =>
          let record : WorkflowExecution :=
            { execution_id := execution_id
              workflow_id := workflow_id
              started_at := now
              completed_at := later
              status := "failed"
              result := none
              error := some e.str }
          (.error e, { st with history := st.history ++ [record] })

/-- Python list slicing `l[start:]` for an integer `start`: a negative start
counts from the end and clamps at the front, a non-negative one clamps at the
back. -/
def pySliceFrom {α : Type} (l : List α) (start : Int) : List α :=
  let n : Int := l.length
  let b := if start < 0 then max 0 (n + start) else min n start
  l.drop b.toNat

/-- `AutomationService.get_workflow_history`
(`app/services/automation_service.py`, lines 280-290): filters the history
list by workflow id, then returns `history[-limit:]`. -/
def get_workflow_history (history : List WorkflowExecution)
    (workflow_id : String) (limit : Int) : List WorkflowExecution :=
  pySliceFrom (history.filter (fun r => r.workflow_id == workflow_id)) (-limit)

/-! ## Verified properties -/

/-- C2: `reject_task` unconditionally forces the status to `cancelled`, from
any state; the status is left unchanged exactly when the task was already
`cancelled`. In particular reject succeeds from every non-terminal state, as
the claim states, but — contrary to the claim — it also rewrites the status
of a task in the terminal states `completed` and `failed`. -/
theorem reject_always_cancels (t : AITask) (reason : Option String) :
    (reject_task t reason).status = .cancelled ∧
    ((reject_task t reason).status = t.status ↔ t.status = .cancelled) := by
  refine ⟨rfl, ?_⟩
  show TaskStatus.cancelled = t.status ↔ t.status = .cancelled
  exact eq_comm

/-- C2 counterexample: a task completed through the translate flow — so in
the terminal state `completed` — has its status changed to `cancelled` by
`reject_task`, refuting "calling reject on a task already in a terminal state
does not change its status". -/
theorem reject_on_completed_changes_status :
    let t := complete_task (begin_processing (create_task 1 [("text", "Hello")] "" false))
      { translated_text := "Hola", tokens_used := 7, quality_score := 85 } 2
    ReachableTask t ∧ t.status = .completed ∧ t.status.isTerminal = true ∧
      (reject_task t (some "needs revision")).status ≠ t.status := by
  refine ⟨ReachableTask.translated_ok 1 _ "" false _ 2, rfl, rfl, ?_⟩
  decide

/-- C8 counterexample: a provider call that takes 61 seconds — longer than
the configured `AI_TIMEOUT` of 60 — still returns its normalized result
instead of failing with `ProviderTimeout`, refuting "generate_text fails
with ProviderTimeout whenever the provider call exceeds a configured
timeout". -/
theorem generate_text_ignores_timeout_cex :
    AI_TIMEOUT < 61 ∧
    generate_text (.ok { content := some "hi", total_tokens := some 5, model := some "m" }) 61 =
      .ok { text := "hi", tokens_used := 5, model_used := "m" } ∧
    generate_text (.ok { content := some "hi", total_tokens := some 5, model := some "m" }) 61 ≠
      .error .providerTimeout := by
  refine ⟨by decide, rfl, fun h => Except.noConfusion h⟩

/-- C8 (amended): `generate_text` fails with `ProviderError` exactly when the
provider call fails, re-raising the provider message; it never produces
`ProviderTimeout`, and its outcome is independent of the call duration — the
configured `AI_TIMEOUT` is not applied at the gateway, so nothing bounds the
provider call. -/
theorem generate_text_no_timeout (outcome : Except String ChatLLMResponse)
    (elapsedSeconds : Nat) :
    generate_text outcome elapsedSeconds = generate_text outcome 0 ∧
    generate_text outcome elapsedSeconds ≠ .error .providerTimeout ∧
    (∀ e, outcome = .error e →
      generate_text outcome elapsedSeconds = .error (.providerError e)) ∧
    (∀ r, outcome = .ok r →
      generate_text outcome elapsedSeconds =
        .ok { text := r.content.getD "", tokens_used := r.total_tokens.getD 0,
              model_used := r.model.getD "unknown" }) := by
  cases outcome with
  | ok r =>
    refine ⟨rfl, fun h => Except.noConfusion h, fun e h => Except.noConfusion h,
      fun r2 h => ?_⟩
    cases h
    rfl
  | error e =>
    refine ⟨rfl, ?_, fun e2 h => ?_, fun r2 h => Except.noConfusion h⟩
    · intro h
      injection h with h2
      exact GatewayFailure.noConfusion h2
    · cases h
      rfl

/-- C8 amended-claim witness at concrete calls. -/
theorem generate_text_no_timeout_witness :
    generate_text (.error "boom") 61 = .error (.providerError "boom") ∧
    generate_text (.ok { content := none, total_tokens := none, model := none }) 0 =
      .ok { text := "", tokens_used := 0, model_used := "unknown" } := by
  constructor
  · exact (generate_text_no_timeout (.error "boom") 61).2.2.1 "boom" rfl
  · exact (generate_text_no_timeout
      (.ok { content := none, total_tokens := none, model := none }) 0).2.2.2 _ rfl

/-- C9: `get_workflow_history` with `limit = 0` returns the whole filtered
history for the workflow, in recorded order — `history[-0:]` is `history[0:]`,
the full list — not zero records. -/
theorem get_workflow_history_limit_zero (history : List WorkflowExecution)
    (workflow_id : String) :
    get_workflow_history history workflow_id 0 =
      history.filter (fun r => r.workflow_id == workflow_id) := by
  unfold get_workflow_history pySliceFrom
  simp

/-- C1: `trigger_workflow` on a known, active workflow always raises
`TypeError` — `execution_id = str(UUID())` calls the `uuid.UUID` constructor
with no argument, before the `try` block — and leaves the state (in
particular the execution history) unchanged: no `WorkflowExecution` record is
ever appended, the dispatched handler never runs. -/
theorem trigger_workflow_always_raises_typeerror (st : AutomationState)
    (workflow_id : String)
    (handler : String → Except PyExc (List (String × String)))
    (now later : Nat) (wf : AutomationWorkflow)
    (hfind : lookupWorkflow st workflow_id = some wf)
    (hactive : wf.is_active = true) :
    trigger_workflow st workflow_id handler now later =
      (.error (.typeError
        "one of the hex, bytes, bytes_le, fields, or int arguments must be given"),
       st) := by
  unfold trigger_workflow
  rw [hfind]
  simp [hactive, uuid_constructor_noargs]

/-- C1 witness: a concrete registry holding one active `auto_translate`
workflow; triggering it raises `TypeError` and appends nothing. -/
theorem trigger_workflow_always_raises_typeerror_witness :
    trigger_workflow
      { workflows := [("w1",
          { id := "w1", name := "daily translate", workflow_type := "auto_translate",
            config := [("target_languages", "es")], schedule := none,
            is_active := true, created_by := "u1", created_at := 0 })],
        history := [] }
      "w1" (fun _ => .ok []) 0 1 =
      (.error (.typeError
        "one of the hex, bytes, bytes_le, fields, or int arguments must be given"),
       { workflows := [("w1",
           { id := "w1", name := "daily translate", workflow_type := "auto_translate",
             config := [("target_languages", "es")], schedule := none,
             is_active := true, created_by := "u1", created_at := 0 })],
         history := [] }) :=
  trigger_workflow_always_raises_typeerror _ _ _ _ _ _ rfl rfl

/-- C4 counterexample: in a translate call whose provider call fails, a
`TranslationJob` row HAS been created — it was inserted and committed before
the provider call and remains, marked failed — refuting "no result entity is
created for that operation". -/
theorem translate_provider_failure_creates_entity_cex :
    resultEntityCount (translate 1 2 "Hello" "en" "es" (.error "Provider down") 0) = 1 ∧
    translate 1 2 "Hello" "en" "es" (.error "Provider down") 0 =
      .providerFailure
        { id := 1, status := .failed,
          input_data := [("text", "Hello"), ("source_lang", "en"), ("target_lang", "es")],
          prompt := "", output_data := none, tokens_used := none,
          processing_time := none, error_message := some "Provider down",
          requires_approval := false, approved := false, approved_by := none,
          approved_at := none }
        { id := 2, task_id := 1, source_language := "en", target_language := "es",
          source_text := "Hello", translated_text := none, status := .failed,
          quality_score := none, error_message := some "Provider down" }
        "Provider down" :=
  ⟨rfl, rfl⟩

/-- C4 (amended): when the provider call fails, the owning task ends `failed`
with the provider error message recorded and no output, the original failure
is re-raised to the caller, and the `TranslationJob` created for the
operation before the provider call remains, marked `failed` with the error
message and no translated text — a result entity exists, but never a
completed one. -/
theorem translate_provider_failure_marks_failed (taskId jobId : Nat)
    (text source_lang target_lang e : String) (ptime : Nat)
    (hs : source_lang ∈ SUPPORTED_LANGUAGES)
    (ht : target_lang ∈ SUPPORTED_LANGUAGES) :
    ∃ task job,
      translate taskId jobId text source_lang target_lang (.error e) ptime =
        .providerFailure task job e ∧
      task.status = .failed ∧ task.error_message = some e ∧
      task.output_data = none ∧
      job.status = .failed ∧ job.error_message = some e ∧
      job.translated_text = none ∧ job.task_id = task.id := by
  unfold translate
  rw [if_neg (not_not_intro hs), if_neg (not_not_intro ht)]
  exact ⟨_, _, rfl, rfl, rfl, rfl, rfl, rfl, rfl, rfl⟩

/-- C10: `update_workflow` ignores falsy `name` and `config` arguments
(supplying `""` or the empty dict leaves the stored field unchanged, so the
config can never be cleared), overwrites `schedule` and `is_active` whenever
the supplied value is not `None` (in particular `is_active = false`
deactivates the workflow), and leaves unsupplied fields and the immutable
fields unchanged. -/
theorem update_workflow_truthiness_frame (w : AutomationWorkflow)
    (name : Option String) (config : Option (List (String × String)))
    (schedule : Option String) (is_active : Option Bool) :
    (update_workflow w (some "") config schedule is_active).name = w.name ∧
    (update_workflow w name (some []) schedule is_active).config = w.config ∧
    (∀ s, (update_workflow w name config (some s) is_active).schedule = some s) ∧
    (∀ b, (update_workflow w name config schedule (some b)).is_active = b) ∧
    ((update_workflow w name config schedule is_active).config = w.config ∨
      ∃ c, config = some c ∧ c ≠ [] ∧
        (update_workflow w name config schedule is_active).config = c) ∧
    (update_workflow w none config schedule is_active).name = w.name ∧
    (update_workflow w name none schedule is_active).config = w.config ∧
    (update_workflow w name config none is_active).schedule = w.schedule ∧
    (update_workflow w name config schedule none).is_active = w.is_active ∧
    (update_workflow w name config schedule is_active).workflow_type = w.workflow_type ∧
    (update_workflow w name config schedule is_active).created_by = w.created_by := by
  rcases name with - | n <;> rcases config with - | c <;>
    rcases schedule with - | s <;> rcases is_active with - | b <;>
      simp only [update_workflow] <;> split_ifs <;> simp_all

/-- C5: immediately after `create_template`, and after any `update_template`
whose payload supplies `prompt_template`, the stored `variables` field is
duplicate-free and holds exactly the placeholder names that
`re.findall(r"\{([^}]+)\}", prompt_template)` captures — i.e. the set of
distinct placeholder names of the (new) prompt template. -/
theorem template_variables_derived :
    (∀ data : ContentTemplateCreate,
      (create_template data).variables_.Nodup ∧
      ∀ x, x ∈ (create_template data).variables_ ↔
        x ∈ findallBraced data.prompt_template.data) ∧
    (∀ (t : ContentTemplate) (u : ContentTemplateUpdate) (pt : String),
      u.prompt_template = some pt →
      (update_template t u).variables_.Nodup ∧
      ∀ x, x ∈ (update_template t u).variables_ ↔ x ∈ findallBraced pt.data) := by
  constructor
  · intro data
    exact ⟨List.nodup_dedup _, fun x => List.mem_dedup⟩
  · intro t u pt h
    have hv : (update_template t u).variables_ = (findallBraced pt.data).dedup := by
      simp [update_template, h, extract_variables]
    rw [hv]
    exact ⟨List.nodup_dedup _, fun x => List.mem_dedup⟩

/-- C5 witness: concrete create and update calls, with a duplicated
placeholder collapsing to one entry. -/
theorem template_variables_derived_witness :
    ((create_template
        { name := "greet", template_type := "social_post", description := none,
          prompt_template := "Hello {name}, about {topic} and {topic}",
          language := "en", platform := none }).variables_.Nodup ∧
      "topic" ∈ (create_template
        { name := "greet", template_type := "social_post", description := none,
          prompt_template := "Hello {name}, about {topic} and {topic}",
          language := "en", platform := none }).variables_) ∧
    "subject" ∈ (update_template
        (create_template
          { name := "greet", template_type := "social_post", description := none,
            prompt_template := "Hi", language := "en", platform := none })
        { prompt_template := some "About {subject}" }).variables_ := by
  constructor
  · constructor
    · exact (template_variables_derived.1 _).1
    · exact ((template_variables_derived.1 _).2 "topic").mpr (by decide)
  · exact ((template_variables_derived.2 _ _ "About {subject}" rfl).2 "subject").mpr
      (by decide)

/-- C7: `batch_translate` returns exactly one entry per input text, in input
order (so one item's failure never aborts the remaining items or the
aggregate call), and every error-tagged entry carries the original input
text of its item; concretely, a batch of three where only the second item's
provider call fails yields two successes and one error entry in original
order. -/
theorem batch_translate_isolated (texts : List String)
    (source_lang target_lang : String)
    (provider : Nat → Except String ProviderTranslateResult) (ptime : Nat → Nat)
    (nextId callIdx : Nat) :
    ((batch_translate texts source_lang target_lang provider ptime
        nextId callIdx).length = texts.length) ∧
    List.Forall₂ (fun text entry =>
        match entry with
        | BatchEntry.err _ t => t = text
        | BatchEntry.ok _ => True)
      texts (batch_translate texts source_lang target_lang provider ptime
        nextId callIdx) ∧
    batch_translate ["good morning", "good night", "farewell"] "en" "es"
        (fun i => if i = 1 then .error "Provider down"
                  else .ok { translated_text := "hola", tokens_used := 3,
                             quality_score := 85 })
        (fun _ => 1) 0 0 =
      [.ok { task_id := 0, translation_id := 1, translated_text := "hola",
             quality_score := some 85, status := "completed" },
       .err "Provider down" "good night",
       .ok { task_id := 4, translation_id := 5, translated_text := "hola",
             quality_score := some 85, status := "completed" }] := by
  have main : ∀ (ts : List String) (nid cid : Nat),
      List.Forall₂ (fun text entry =>
        match entry with
        | BatchEntry.err _ t => t = text
        | BatchEntry.ok _ => True)
      ts (batch_translate ts source_lang target_lang provider ptime nid cid) := by
    intro ts
    induction ts with
    | nil => intro nid cid; exact List.Forall₂.nil
    | cons text rest ih =>
      intro nid cid
      rw [batch_translate]
      cases h : translate nid (nid + 1) text source_lang target_lang
          (provider cid) (ptime cid) with
      | validationError m => exact List.Forall₂.cons rfl (ih nid cid)
      | providerFailure t j e => exact List.Forall₂.cons rfl (ih (nid + 2) (cid + 1))
      | success t j resp => exact List.Forall₂.cons trivial (ih (nid + 2) (cid + 1))
  refine ⟨((main texts nextId callIdx).length_eq).symm, main texts nextId callIdx, rfl⟩

/-- C3 counterexample: a task completed through the translate flow and then
rejected is reachable through the lifecycle operations, yet its status is
`cancelled` while `output_data` is still set — refuting "status == completed
holds if and only if output_data is set". -/
theorem completed_then_rejected_breaks_invariant :
    let t := reject_task (complete_task (begin_processing
        (create_task 1 [("text", "Hello")] "" false))
      { translated_text := "Hola", tokens_used := 7, quality_score := 85 } 2) none
    ReachableTask t ∧
      ¬(t.status = .completed ↔ t.output_data ≠ none) := by
  refine ⟨ReachableTask.rejected _ none (ReachableTask.translated_ok 1 _ "" false _ 2), ?_⟩
  decide

/-- C3 (amended): for every task reachable through the lifecycle operations,
`status == completed` implies `output_data` is set; `output_data` set implies
status is `completed` or `cancelled` (a completed task keeps its output when
later rejected); and `error_message` is set if and only if status is `failed`
or `cancelled`. -/
theorem task_fields_track_status (t : AITask) (h : ReachableTask t) :
    (t.status = .completed → t.output_data ≠ none) ∧
    (t.output_data ≠ none → t.status = .completed ∨ t.status = .cancelled) ∧
    (t.error_message ≠ none ↔ (t.status = .failed ∨ t.status = .cancelled)) := by
  induction h with
  | created id input prompt req => simp [create_task]
  | processing id input prompt req => simp [create_task, begin_processing]
  | translated_ok id input prompt req result ptime =>
      simp [create_task, begin_processing, complete_task]
  | translated_err id input prompt req errMsg =>
      simp [create_task, begin_processing, fail_task]
  | rejected t reason ht ih => simp [reject_task]
  | approved t who now ht ih => simpa [approve_task] using ih

/-- C3 amended-claim witness at a concrete failed task. -/
theorem task_fields_track_status_witness :
    let t := fail_task (begin_processing (create_task 0 [] "" false)) "Provider down"
    (t.status = .completed → t.output_data ≠ none) ∧
    (t.output_data ≠ none → t.status = .completed ∨ t.status = .cancelled) ∧
    (t.error_message ≠ none ↔ (t.status = .failed ∨ t.status = .cancelled)) :=
  task_fields_track_status _ (ReachableTask.translated_err 0 [] "" false "Provider down")

theorem pyFormatScan_lit_append (vals : List (String × String)) (cs rest : List Char)
    (h : ∀ c ∈ cs, c ≠ '{' ∧ c ≠ '}') :
    pyFormatScan vals (cs ++ rest) .lit =
      (fun s => cs ++ s) <$> pyFormatScan vals rest .lit := by
  induction cs with
  | nil =>
    simp only [List.nil_append]
    cases pyFormatScan vals rest .lit <;> rfl
  | cons c cs ih =>
    have hc := h c (List.mem_cons_self c cs)
    have hrest : ∀ x ∈ cs, x ≠ '{' ∧ x ≠ '}' :=
      fun x hx => h x (List.mem_cons_of_mem c hx)
    simp only [List.cons_append, pyFormatScan, List.append_eq]
    rw [if_neg hc.1, if_neg hc.2, ih hrest]
    cases pyFormatScan vals rest .lit <;> rfl

theorem pyFormatScan_field_extend (vals : List (String × String)) (ns : List Char)
    (h : ∀ c ∈ ns, c ≠ '{' ∧ c ≠ '}') :
    ∀ (body rest : List Char),
    pyFormatScan vals (ns ++ rest) (.field body) =
      pyFormatScan vals rest (.field (body ++ ns)) := by
  induction ns with
  | nil => intro body rest; simp
  | cons c ns ih =>
    intro body rest
    have hc := h c (List.mem_cons_self c ns)
    have hrest : ∀ x ∈ ns, x ≠ '{' ∧ x ≠ '}' :=
      fun x hx => h x (List.mem_cons_of_mem c hx)
    simp only [List.cons_append, pyFormatScan, List.append_eq]
    rw [if_neg (by simp [hc.1]), if_neg hc.2, ih hrest]
    simp [List.append_assoc]

theorem pyFormatScan_field_close (vals : List (String × String))
    (body rest : List Char)
    (hany : body.any fieldBreakChar = false)
    (hne : body.isEmpty = false)
    (hall : body.all (fun c => c.isDigit) = false) :
    pyFormatScan vals ('}' :: rest) (.field body) =
      (match lookupVar vals (String.mk body) with
       | some v => (fun s => v.data ++ s) <$> pyFormatScan vals rest .lit
       | none => .error (.missingVariable (String.mk body))) := by
  simp only [pyFormatScan]
  simp [hany, hne, hall]

theorem pyFormatScan_ofSegs (vals : List (String × String)) :
    ∀ segs : List Seg, wfSegs segs = true →
    pyFormatScan vals (ofSegs segs).data .lit =
      (match firstMissing vals segs with
       | none => .ok (renderSegs vals segs).data
       | some k => .error (.missingVariable k)) := by
  intro segs
  induction segs with
  | nil => intro _; rfl
  | cons seg rest ih =>
    intro hwf
    have hwseg : wfSeg seg = true := by
      simp [wfSegs, List.all_cons] at hwf
      exact hwf.1
    have hwrest : wfSegs rest = true := by
      simp [wfSegs, List.all_cons] at hwf
      simpa [wfSegs] using hwf.2
    cases seg with
    | lit s =>
      have hd : (ofSegs (Seg.lit s :: rest)).data = s.data ++ (ofSegs rest).data := by
        show ((segText (Seg.lit s)) ++ ofSegs rest).data = _
        simp [segText, String.data_append]
      have hlit : ∀ c ∈ s.data, c ≠ '{' ∧ c ≠ '}' := by
        intro c hc
        simp [wfSeg, List.all_eq_true] at hwseg
        exact hwseg c hc
      rw [hd, pyFormatScan_lit_append vals _ _ hlit, ih hwrest]
      show _ = (match firstMissing vals rest with
        | none => Except.ok (renderSegs vals (Seg.lit s :: rest)).data
        | some k => Except.error (FormatError.missingVariable k))
      cases firstMissing vals rest with
      | none => simp [renderSegs, String.data_append]
      | some k => rfl
    | var n =>
      have hd : (ofSegs (Seg.var n :: rest)).data =
          '{' :: (n.data ++ ('}' :: (ofSegs rest).data)) := by
        show ((segText (Seg.var n)) ++ ofSegs rest).data = _
        simp [segText, String.data_append]
      have hw := hwseg
      simp [wfSeg, List.all_eq_true] at hw
      obtain ⟨⟨hne0, hchars⟩, hdig⟩ := hw
      have hgood : ∀ c ∈ n.data, c ≠ '{' ∧ c ≠ '}' := by
        intro c hc
        exact ⟨(hchars c hc).1.1, (hchars c hc).1.2⟩
      have hany : n.data.any fieldBreakChar = false := by
        cases hb : n.data.any fieldBreakChar
        · rfl
        · exfalso
          rw [List.any_eq_true] at hb
          obtain ⟨x, hx, hbx⟩ := hb
          rw [(hchars x hx).2] at hbx
          exact Bool.noConfusion hbx
      have hne : n.data.isEmpty = false := by
        cases hnd : n.data with
        | nil => exact absurd hnd hne0
        | cons a l => rfl
      have hall : n.data.all (fun c => c.isDigit) = false := by
        obtain ⟨x, hx, hxd⟩ := hdig
        cases hb : n.data.all (fun c => c.isDigit)
        · rfl
        · exfalso
          rw [List.all_eq_true] at hb
          have hx2 := hb x hx
          rw [hxd] at hx2
          exact Bool.noConfusion hx2
      rw [hd]
      have h1 : pyFormatScan vals ('{' :: (n.data ++ ('}' :: (ofSegs rest).data))) .lit =
          pyFormatScan vals (n.data ++ ('}' :: (ofSegs rest).data)) (.field []) := by
        simp [pyFormatScan]
      rw [h1, pyFormatScan_field_extend vals n.data hgood, List.nil_append,
        pyFormatScan_field_close vals n.data _ hany hne hall]
      have heta : String.mk n.data = n := rfl
      rw [heta]
      cases hlk : lookupVar vals n with
      | none =>
        show _ = (match firstMissing vals (Seg.var n :: rest) with
          | none => Except.ok (renderSegs vals (Seg.var n :: rest)).data
          | some k => Except.error (FormatError.missingVariable k))
        simp [firstMissing, hlk]
      | some v =>
        rw [ih hwrest]
        show _ = (match firstMissing vals (Seg.var n :: rest) with
          | none => Except.ok (renderSegs vals (Seg.var n :: rest)).data
          | some k => Except.error (FormatError.missingVariable k))
        have hfm : firstMissing vals (Seg.var n :: rest) = firstMissing vals rest := by
          simp [firstMissing, hlk]
        rw [hfm]
        cases firstMissing vals rest with
        | none => simp [renderSegs, hlk, String.data_append]
        | some k => rfl

/-- C6: template rendering is strict substitution. For every plain-subset
template, presented as literal/placeholder segments: when every placeholder
has a supplied value, rendering returns the text with each placeholder
replaced by its value; when some placeholder is missing, rendering fails
with `ValueError("Missing variable: ...")` naming the first missing key (the
`KeyError` re-raised by `test_template`), producing no output. -/
theorem test_template_strict_rendering (segs : List Seg)
    (vals : List (String × String)) (hwf : wfSegs segs = true) :
    (firstMissing vals segs = none →
      test_template_render (ofSegs segs) vals = .ok (renderSegs vals segs)) ∧
    (∀ k, firstMissing vals segs = some k →
      test_template_render (ofSegs segs) vals =
        .error (.valueError ("Missing variable: " ++ sq ++ k ++ sq))) := by
  have h5 := pyFormatScan_ofSegs vals segs hwf
  constructor
  · intro h0
    rw [h0] at h5
    unfold test_template_render pyFormat
    rw [h5]
    rfl
  · intro k hk
    rw [hk] at h5
    unfold test_template_render pyFormat
    rw [h5]
    rfl

/-- C6 witness: the spec example — rendering `"Hello \x7bname\x7d"` with
`name = "Ana"` yields `"Hello Ana"`, and rendering it with no values fails
with the `ValueError` naming `name`. -/
theorem test_template_strict_rendering_witness :
    test_template_render "Hello {name}" [("name", "Ana")] = .ok "Hello Ana" ∧
    test_template_render "Hello {name}" [] =
      .error (.valueError ("Missing variable: " ++ sq ++ "name" ++ sq)) := by
  constructor
  · have h1 := (test_template_strict_rendering [Seg.lit "Hello ", Seg.var "name"]
      [("name", "Ana")] (by decide)).1 (by decide)
    have e1 : ofSegs [Seg.lit "Hello ", Seg.var "name"] = "Hello {name}" := by decide
    have e2 : renderSegs [("name", "Ana")] [Seg.lit "Hello ", Seg.var "name"] =
        "Hello Ana" := by decide
    rw [e1, e2] at h1
    exact h1
  · have h2 := (test_template_strict_rendering [Seg.lit "Hello ", Seg.var "name"]
      [] (by decide)).2 "name" (by decide)
    have e1 : ofSegs [Seg.lit "Hello ", Seg.var "name"] = "Hello {name}" := by decide
    rw [e1] at h2
    exact h2

/-- C4 amended-claim witness at a concrete failing translate call. -/
theorem translate_provider_failure_marks_failed_witness :
    ∃ task job,
      translate 3 4 "Good morning" "en" "fr" (.error "Provider down") 1 =
        .providerFailure task job "Provider down" ∧
      task.status = .failed ∧ task.error_message = some "Provider down" ∧
      task.output_data = none ∧
      job.status = .failed ∧ job.error_message = some "Provider down" ∧
      job.translated_text = none ∧ job.task_id = task.id :=
  translate_provider_failure_marks_failed 3 4 "Good morning" "en" "fr"
    "Provider down" 1 (by decide) (by decide)

end AiService
